import Mathlib

/-!
# The wallet overview page (`src/qt/overviewpage.cpp`)

A shallow embedding of `OverviewPage` and of the list item renderer
`TxViewDelegate`, followed by the properties of the balance display, of the
unit-change handler, of the click forwarding and of the row painter.

Conventions of the embedding.

* `CAmount` is `int64_t`; amounts are integers and the one addition the page
  performs on them is reduced to the signed 64-bit range (`add64`).  `int` is
  treated alike with `add32`/`sub32`/`div32`.
* Objects that live outside this file of the program (wallet model, options
  model, filter proxy mapping, unit formatting, font metrics) are read through
  an environment; pointers are `Option Nat`, with `none` the null pointer.
* A member function that dereferences a null pointer has no result (`none`).
* Signal/slot connections, emitted signals and the executions of the slot
  `setBalance` are recorded next to the object's fields in `World`.
-/

namespace DeepOnion

/-! ## Machine integers -/

/-- Monetary amount, `int64_t` in the program. -/
abbrev CAmount := Int

/-- Reduction of an integer to the signed 64-bit range (two's complement). -/
def wrap64 (x : Int) : Int := (x + 9223372036854775808) % 18446744073709551616 - 9223372036854775808

/-- Addition of two `CAmount` values as the machine performs it. -/
def add64 (a b : CAmount) : CAmount := wrap64 (a + b)

/-- Membership in the signed 64-bit range. -/
def inInt64 (x : Int) : Prop := -9223372036854775808 ≤ x ∧ x ≤ 9223372036854775807

instance (x : Int) : Decidable (inInt64 x) := by
  unfold inInt64; exact inferInstance

/-- Reduction of an integer to the signed 32-bit range (two's complement). -/
def wrap32 (x : Int) : Int := (x + 2147483648) % 4294967296 - 2147483648

/-- Addition on `int`. -/
def add32 (a b : Int) : Int := wrap32 (a + b)

/-- Subtraction on `int`. -/
def sub32 (a b : Int) : Int := wrap32 (a - b)

/-- Multiplication on `int`. -/
def mul32 (a b : Int) : Int := wrap32 (a * b)

/-- Division on `int`: the quotient is truncated towards zero. -/
def div32 (a b : Int) : Int := wrap32 (Int.tdiv a b)

/-! ## Collaborators outside the file -/

/-- The thousands-separator policy of `BitcoinUnits`. -/
inductive SeparatorStyle where
  | separatorNever
  | separatorStandard
  | separatorAlways
  deriving DecidableEq, Repr

/-- The static formatting functions of `BitcoinUnits` (`qt/bitcoinunits.h`),
which this file only calls; they are a parameter of the page's operations. -/
structure BitcoinUnits where
  /-- The enumerator `BitcoinUnits::BTC`. -/
  BTC : Int
  /-- Text of `BitcoinUnits::format(unit, amount, plussign, separators)`. -/
  format : Int → CAmount → Bool → SeparatorStyle → String
  /-- Text of `BitcoinUnits::formatWithUnit(unit, amount, plussign, separators)`. -/
  formatWithUnit : Int → CAmount → Bool → SeparatorStyle → String
  /-- Text of `BitcoinUnits::shortName(unit)`. -/
  shortName : Int → String

/-- The eight amounts of a balance notification, in the order of the
parameters of `setBalance`. -/
structure Balances where
  balance : CAmount
  unconfirmedBalance : CAmount
  immatureBalance : CAmount
  stakeBalance : CAmount
  watchOnlyBalance : CAmount
  watchUnconfBalance : CAmount
  watchImmatureBalance : CAmount
  watchStakeBalance : CAmount
  deriving DecidableEq, Repr

/-- The options model as this file reads it: `getDisplayUnit()`. -/
structure OptionsModel where
  displayUnit : Int
  deriving DecidableEq, Repr

/-- The wallet model as this file reads it through its getters. -/
structure WalletModel where
  /-- Value of `getOptionsModel()`; `none` is the null pointer. -/
  optionsModel : Option OptionsModel
  /-- Value of `getTransactionTableModel()`. -/
  transactionTableModel : Option Nat
  /-- Values of `getBalance()` ... `getWatchStakeBalance()`. -/
  balances : Balances
  /-- Value of `haveWatchOnly()`. -/
  haveWatchOnly : Bool
  deriving DecidableEq, Repr

/-- The columns of `TransactionTableModel`. -/
inductive Column where
  | Status
  | Watchonly
  | Date
  | Type
  | ToAddress
  | Amount
  deriving DecidableEq, Repr

/-- The sort orders of Qt. -/
inductive SortOrder where
  | AscendingOrder
  | DescendingOrder
  deriving DecidableEq, Repr

/-- The item data roles used for sorting. -/
inductive ItemRole where
  | DisplayRole
  | EditRole
  deriving DecidableEq, Repr

/-- The number of rows of the recent-transactions list. -/
def NUM_ITEMS : Int := 8

/-- The settings `setWalletModel` gives the `TransactionFilterProxy`. -/
structure TransactionFilterProxy where
  sourceModel : Option Nat
  limit : Int
  dynamicSortFilter : Bool
  sortRole : ItemRole
  showInactive : Bool
  sortColumn : Column
  sortOrder : SortOrder
  deriving DecidableEq, Repr

/-- A model index: a cell of a table model. -/
structure QModelIndex where
  row : Int
  column : Int
  deriving DecidableEq, Repr

/-- The state of the objects the page points to, at the time of a call. -/
structure Env where
  /-- The wallet model stored at an address. -/
  walletModels : Nat → WalletModel
  /-- The result of `mapToSource` on a proxy with the given settings. -/
  mapToSource : TransactionFilterProxy → QModelIndex → QModelIndex

/-! ## The widgets of the form -/

/-- A label of the form: its text and its visibility flag. -/
structure QLabel where
  text : String
  visible : Bool
  deriving DecidableEq, Repr

/-- The table view `listTransactions`, as configured by this file. -/
structure TransactionList where
  model : Option TransactionFilterProxy
  alternatingRowColors : Bool
  sortingEnabled : Bool
  sortIndicator : Option (Column × SortOrder)
  verticalHeaderVisible : Bool
  sectionSizes : List (Column × Int)
  stretchSections : List Column
  deriving DecidableEq, Repr

/-- Member `resizeSection` of the horizontal header. -/
def TransactionList.resizeSection (v : TransactionList) (c : Column) (size : Int) :
    TransactionList :=
  { v with sectionSizes := (c, size) :: v.sectionSizes.filter (fun p => p.1 ≠ c) }

/-- The widgets of `Ui::OverviewPage` that this file reads or writes. -/
structure Ui where
  labelBalance : QLabel
  labelUnconfirmed : QLabel
  labelImmature : QLabel
  labelStake : QLabel
  labelTotal : QLabel
  labelBalanceUnit : QLabel
  labelUnconfirmedUnit : QLabel
  labelImmatureUnit : QLabel
  labelStakeUnit : QLabel
  labelTotalUnit : QLabel
  labelImmatureText : QLabel
  labelStakeText : QLabel
  labelWalletStatus : QLabel
  listTransactions : TransactionList
  deriving DecidableEq, Repr

/-- Member `setText` of a label. -/
def QLabel.setText (l : QLabel) (t : String) : QLabel := { l with text := t }

/-- Member `setVisible` of a label. -/
def QLabel.setVisible (l : QLabel) (b : Bool) : QLabel := { l with visible := b }

/-! ## The page object -/

/-- The data member of `TxViewDelegate` that the page writes. -/
structure TxViewDelegate where
  unit : Int
  deriving DecidableEq, Repr

/-- The data members of `OverviewPage`. -/
structure OverviewPage where
  ui : Ui
  clientModel : Option Nat
  walletModel : Option Nat
  currentBalance : CAmount
  currentUnconfirmedBalance : CAmount
  currentImmatureBalance : CAmount
  currentStakeBalance : CAmount
  currentWatchOnlyBalance : CAmount
  currentWatchUnconfBalance : CAmount
  currentWatchImmatureBalance : CAmount
  currentWatchStakeBalance : CAmount
  txdelegate : TxViewDelegate
  filter : Option TransactionFilterProxy
  deriving DecidableEq, Repr

/-- The objects whose signals the page connects to. -/
inductive Sender where
  | listTransactions
  | labelWalletStatus
  | clientModel (address : Nat)
  | walletModel (address : Nat)
  | optionsModelOf (wallet : Nat)
  deriving DecidableEq, Repr

/-- The signals the page connects to. -/
inductive SignalName where
  | clicked
  | alertsChanged
  | balanceChanged
  | displayUnitChanged
  | notifyWatchonlyChanged
  deriving DecidableEq, Repr

/-- The slots of the page. -/
inductive Slot where
  | handleTransactionClicked
  | handleOutOfSyncWarningClicks
  | updateAlerts
  | setBalance
  | updateDisplayUnit
  | updateWatchOnlyLabels
  deriving DecidableEq, Repr

/-- One `connect(sender, SIGNAL(...), this, SLOT(...))`. -/
structure Connection where
  sender : Sender
  signal : SignalName
  slot : Slot
  deriving DecidableEq, Repr

/-- The signals the page itself emits. -/
inductive Emitted where
  | transactionClicked (index : QModelIndex)
  | outOfSyncWarningClicked
  deriving DecidableEq, Repr

/-- The page together with what surrounds its fields: the connections made
with the page as receiver, the signals it has emitted, the argument list of
every execution of `setBalance` so far, and the number of repaint requests
(`update()`) sent to the transaction list. -/
structure World where
  page : OverviewPage
  connections : List Connection
  emitted : List Emitted
  setBalanceRuns : List Balances
  updateRequests : Nat
  deriving DecidableEq, Repr

/-- The eight cached amounts of the page. -/
def OverviewPage.cached (p : OverviewPage) : Balances :=
  { balance := p.currentBalance
    unconfirmedBalance := p.currentUnconfirmedBalance
    immatureBalance := p.currentImmatureBalance
    stakeBalance := p.currentStakeBalance
    watchOnlyBalance := p.currentWatchOnlyBalance
    watchUnconfBalance := p.currentWatchUnconfBalance
    watchImmatureBalance := p.currentWatchImmatureBalance
    watchStakeBalance := p.currentWatchStakeBalance }

/-- Member `connect`: the connection is appended; nothing is ever removed. -/
def World.connect (w : World) (c : Connection) : World :=
  { w with connections := w.connections ++ [c] }

/-- The value of `model->getOptionsModel()` for a possibly null `model`:
`none` when either pointer is null (the test `model && model->getOptionsModel()`). -/
def optionsOf (env : Env) (model : Option Nat) : Option OptionsModel :=
  match model with
  | none => none
  | some m => (env.walletModels m).optionsModel

/-- `OverviewPage::showOutOfSyncWarning`. -/
def showOutOfSyncWarning (fShow : Bool) (w : World) : World :=
  { w with page := { w.page with ui := { w.page.ui with
      labelWalletStatus := w.page.ui.labelWalletStatus.setVisible fShow } } }

/-- The constructor `OverviewPage::OverviewPage`. The argument is the form as
`setupUi` builds it. Style sheets and icons are not part of the embedding. -/
def OverviewPage.construct (U : BitcoinUnits) (form : Ui) : World :=
  let w : World :=
    { page :=
        { ui := form
          clientModel := none
          walletModel := none
          currentBalance := -1
          currentUnconfirmedBalance := -1
          currentImmatureBalance := -1
          currentStakeBalance := -1
          currentWatchOnlyBalance := -1
          currentWatchUnconfBalance := -1
          currentWatchImmatureBalance := -1
          currentWatchStakeBalance := -1
          txdelegate := { unit := U.BTC }
          filter := none }
      connections := []
      emitted := []
      setBalanceRuns := []
      updateRequests := 0 }
  let w := w.connect ⟨Sender.listTransactions, SignalName.clicked, Slot.handleTransactionClicked⟩
  let w := showOutOfSyncWarning true w
  w.connect ⟨Sender.labelWalletStatus, SignalName.clicked, Slot.handleOutOfSyncWarningClicks⟩

/-- `OverviewPage::handleTransactionClicked`. -/
def handleTransactionClicked (env : Env) (index : QModelIndex) (w : World) : World :=
  match w.page.filter with
  | some f => { w with emitted := w.emitted ++ [Emitted.transactionClicked (env.mapToSource f index)] }
  | none => w

/-- `OverviewPage::handleOutOfSyncWarningClicks`. -/
def handleOutOfSyncWarningClicks (w : World) : World :=
  { w with emitted := w.emitted ++ [Emitted.outOfSyncWarningClicked] }

/-- The statements of `OverviewPage::setBalance` after its first, which has
read the display unit into `unit`. -/
def setBalanceBody (U : BitcoinUnits) (unit : Int) (s : Balances) (w : World) : World :=
  let showImmature : Bool := s.immatureBalance != 0
  let showStake : Bool := s.stakeBalance != 0
  let showWatchOnlyImmature : Bool := s.watchImmatureBalance != 0
  let showWatchOnlyStake : Bool := s.watchStakeBalance != 0
  let ui := w.page.ui
  let ui :=
    { ui with
      labelBalance := ui.labelBalance.setText
        (U.format unit s.balance false SeparatorStyle.separatorAlways)
      labelUnconfirmed := ui.labelUnconfirmed.setText
        (U.format unit s.unconfirmedBalance false SeparatorStyle.separatorAlways)
      labelImmature := (ui.labelImmature.setText
        (U.format unit s.immatureBalance false SeparatorStyle.separatorAlways)).setVisible
          (showImmature || showWatchOnlyImmature)
      labelStake := (ui.labelStake.setText
        (U.format unit s.stakeBalance false SeparatorStyle.separatorAlways)).setVisible
          (showStake || showWatchOnlyStake)
      labelTotal := ui.labelTotal.setText
        (U.format unit
          (add64 (add64 (add64 s.balance s.unconfirmedBalance) s.immatureBalance) s.stakeBalance)
          false SeparatorStyle.separatorAlways)
      labelBalanceUnit := ui.labelBalanceUnit.setText (U.shortName unit)
      labelUnconfirmedUnit := ui.labelUnconfirmedUnit.setText (U.shortName unit)
      labelImmatureUnit := (ui.labelImmatureUnit.setText (U.shortName unit)).setVisible
        (showImmature || showWatchOnlyImmature)
      labelStakeUnit := (ui.labelStakeUnit.setText (U.shortName unit)).setVisible
        (showStake || showWatchOnlyStake)
      labelTotalUnit := ui.labelTotalUnit.setText (U.shortName unit)
      labelImmatureText := ui.labelImmatureText.setVisible (showImmature || showWatchOnlyImmature)
      labelStakeText := ui.labelStakeText.setVisible (showStake || showWatchOnlyStake) }
  { w with
    page :=
      { w.page with
        ui := ui
        currentBalance := s.balance
        currentUnconfirmedBalance := s.unconfirmedBalance
        currentImmatureBalance := s.immatureBalance
        currentStakeBalance := s.stakeBalance
        currentWatchOnlyBalance := s.watchOnlyBalance
        currentWatchUnconfBalance := s.watchUnconfBalance
        currentWatchImmatureBalance := s.watchImmatureBalance
        currentWatchStakeBalance := s.watchStakeBalance }
    setBalanceRuns := w.setBalanceRuns ++ [s] }

/-- `OverviewPage::setBalance`. Its first statement reads the display unit
through `walletModel` and the options model without a test: there is no
result when either pointer is null. -/
def setBalance (U : BitcoinUnits) (env : Env) (s : Balances) (w : World) : Option World :=
  match optionsOf env w.page.walletModel with
  | none => none
  | some options => some (setBalanceBody U options.displayUnit s w)

/-- `OverviewPage::updateWatchOnlyLabels`: every statement of its body is
commented out in this revision. -/
def updateWatchOnlyLabels (_showWatchOnly : Bool) (w : World) : World := w

/-- `OverviewPage::updateAlerts`: every statement of its body is commented out. -/
def updateAlerts (_warnings : String) (w : World) : World := w

/-- `OverviewPage::updateDisplayUnit`. -/
def updateDisplayUnit (U : BitcoinUnits) (env : Env) (w : World) : Option World :=
  match optionsOf env w.page.walletModel with
  | none => some w
  | some options =>
    (if w.page.currentBalance ≠ -1 then setBalance U env w.page.cached w else some w).bind
      fun w1 =>
        some
          { w1 with
            page := { w1.page with txdelegate := { unit := options.displayUnit } }
            updateRequests := w1.updateRequests + 1 }

/-- The body of the `if` of `OverviewPage::setWalletModel`, for a model at
address `m`. -/
def setWalletModelConnected (U : BitcoinUnits) (env : Env) (m : Nat) (w : World) :
    Option World :=
  let model := env.walletModels m
  let filter : TransactionFilterProxy :=
    { sourceModel := model.transactionTableModel
      limit := NUM_ITEMS
      dynamicSortFilter := true
      sortRole := ItemRole.EditRole
      showInactive := false
      sortColumn := Column.Date
      sortOrder := SortOrder.DescendingOrder }
  let view := w.page.ui.listTransactions
  let view :=
    { view with
      model := some filter
      alternatingRowColors := true
      sortingEnabled := true
      sortIndicator := some (Column.Date, SortOrder.DescendingOrder)
      verticalHeaderVisible := false }
  let view := view.resizeSection Column.Status 28
  let view := view.resizeSection Column.Watchonly 28
  let view := view.resizeSection Column.Date 120
  let view := view.resizeSection Column.Type 120
  let view := { view with stretchSections := Column.ToAddress :: view.stretchSections }
  let view := view.resizeSection Column.Amount 120
  let w := { w with page := { w.page with
      filter := some filter
      ui := { w.page.ui with listTransactions := view } } }
  (setBalance U env model.balances w).bind fun w =>
    let w := w.connect ⟨Sender.walletModel m, SignalName.balanceChanged, Slot.setBalance⟩
    let w := w.connect ⟨Sender.optionsModelOf m, SignalName.displayUnitChanged, Slot.updateDisplayUnit⟩
    let w := updateWatchOnlyLabels model.haveWatchOnly w
    some (w.connect ⟨Sender.walletModel m, SignalName.notifyWatchonlyChanged, Slot.updateWatchOnlyLabels⟩)

/-- `OverviewPage::setWalletModel`. -/
def setWalletModel (U : BitcoinUnits) (env : Env) (model : Option Nat) (w : World) :
    Option World :=
  let w := { w with page := { w.page with walletModel := model } }
  (match model, optionsOf env model with
    | some m, some _ => setWalletModelConnected U env m w
    | _, _ => some w).bind
    (updateDisplayUnit U env)

/-- `OverviewPage::setClientModel`. -/
def setClientModel (model : Option Nat) (statusBarWarnings : String) (w : World) : World :=
  let w := { w with page := { w.page with clientModel := model } }
  match model with
  | some m =>
    let w := w.connect ⟨Sender.clientModel m, SignalName.alertsChanged, Slot.updateAlerts⟩
    updateAlerts statusBarWarnings w
  | none => w

/-! ## The list item renderer -/

/-- The side of a decoration icon, in pixels. -/
def DECORATION_SIZE : Int := 54

/-- A rectangle as `QRect(x, y, width, height)`; it covers the pixel rows
`y` to `y + height - 1` and the pixel columns `x` to `x + width - 1`, the
y axis pointing down. -/
structure QRect where
  x : Int
  y : Int
  width : Int
  height : Int
  deriving DecidableEq, Repr

/-- Member `left`. -/
def QRect.left (r : QRect) : Int := r.x

/-- Member `top`. -/
def QRect.top (r : QRect) : Int := r.y

/-- Member `right`: the last column of the rectangle. -/
def QRect.right (r : QRect) : Int := r.x + r.width - 1

/-- A colour, `QColor(r, g, b)`. -/
structure QColor where
  r : Nat
  g : Nat
  b : Nat
  deriving DecidableEq, Repr

/-- An icon, identified by its resource name. -/
structure QIcon where
  name : String
  deriving DecidableEq, Repr

/-- The two alignment flag sets the renderer passes to `drawText`. -/
inductive Alignment where
  | AlignLeftVCenter
  | AlignRightVCenter
  deriving DecidableEq, Repr

/-- The data of one row of the transaction model, by role. -/
structure TxRow where
  /-- `TransactionTableModel::RawDecorationRole`. -/
  rawDecoration : QIcon
  /-- `TransactionTableModel::DateRole`, seconds since the epoch. -/
  date : Int
  /-- `Qt::DisplayRole`. -/
  display : String
  /-- `TransactionTableModel::AmountRole`. -/
  amount : CAmount
  /-- `TransactionTableModel::ConfirmedRole`. -/
  confirmed : Bool
  /-- `Qt::ForegroundRole`: the brush colour when the value converts to a brush. -/
  foreground : Option QColor
  /-- `TransactionTableModel::WatchonlyRole`. -/
  watchonly : Bool
  /-- `TransactionTableModel::WatchonlyDecorationRole`. -/
  watchonlyDecoration : QIcon
  deriving DecidableEq, Repr

/-- The part of `QStyleOptionViewItem` the renderer reads. -/
structure QStyleOptionViewItem where
  rect : QRect
  /-- Value of `palette.color(QPalette::Text)`. -/
  paletteText : QColor
  deriving DecidableEq, Repr

/-- What the painter has been asked to draw. A text carries the pen colour
in force when it was drawn. -/
inductive DrawOp where
  | icon (i : QIcon) (rect : QRect)
  | text (rect : QRect) (align : Alignment) (str : String) (pen : QColor)
  deriving DecidableEq, Repr

/-- The painter: current pen, the pens put aside by `save`, and the drawing
operations so far. -/
structure QPainter where
  pen : QColor
  saved : List QColor
  ops : List DrawOp
  deriving DecidableEq, Repr

/-- Member `save`. -/
def QPainter.save (p : QPainter) : QPainter := { p with saved := p.pen :: p.saved }

/-- Member `restore`. -/
def QPainter.restore (p : QPainter) : QPainter :=
  match p.saved with
  | [] => p
  | c :: rest => { p with pen := c, saved := rest }

/-- Member `setPen`. -/
def QPainter.setPen (p : QPainter) (c : QColor) : QPainter := { p with pen := c }

/-- Member `drawText`. -/
def QPainter.drawText (p : QPainter) (rect : QRect) (align : Alignment) (str : String) :
    QPainter :=
  { p with ops := p.ops ++ [DrawOp.text rect align str p.pen] }

/-- `QIcon::paint(painter, rect)`. -/
def QPainter.paintIcon (p : QPainter) (i : QIcon) (rect : QRect) : QPainter :=
  { p with ops := p.ops ++ [DrawOp.icon i rect] }

/-- What the renderer takes from outside the file: the colour constants of
`qt/guiconstants.h`, the platform style, the font metrics and the date format. -/
structure PaintEnv where
  COLOR_NEGATIVE : QColor
  COLOR_UNCONFIRMED : QColor
  /-- `PlatformStyle::SingleColorIcon`. -/
  SingleColorIcon : QIcon → QIcon
  /-- The bounding rectangle `drawText` reports for a text. -/
  boundingRect : QRect → Alignment → String → QRect
  /-- `GUIUtil::dateTimeStr`. -/
  dateTimeStr : Int → String

/-- `TxViewDelegate::paint`. -/
def TxViewDelegate.paint (U : BitcoinUnits) (P : PaintEnv) (d : TxViewDelegate)
    (painter : QPainter) (option : QStyleOptionViewItem) (index : TxRow) : QPainter :=
  let painter := painter.save
  let icon := index.rawDecoration
  let mainRect := option.rect
  let decorationRect : QRect := ⟨mainRect.left, mainRect.top, DECORATION_SIZE, DECORATION_SIZE⟩
  let xspace := add32 DECORATION_SIZE 8
  let ypad : Int := 6
  let halfheight := div32 (sub32 mainRect.height (mul32 2 ypad)) 2
  let amountRect : QRect :=
    ⟨add32 mainRect.left xspace, add32 mainRect.top ypad, sub32 mainRect.width xspace, halfheight⟩
  let addressRect : QRect :=
    ⟨add32 mainRect.left xspace, add32 (add32 mainRect.top ypad) halfheight,
      sub32 mainRect.width xspace, halfheight⟩
  let icon := P.SingleColorIcon icon
  let painter := painter.paintIcon icon decorationRect
  let date := index.date
  let address := index.display
  let amount := index.amount
  let confirmed := index.confirmed
  let foreground :=
    match index.foreground with
    | some brush => brush
    | none => option.paletteText
  let painter := painter.setPen foreground
  let boundingRect := P.boundingRect addressRect Alignment.AlignLeftVCenter address
  let painter := painter.drawText addressRect Alignment.AlignLeftVCenter address
  let painter :=
    if index.watchonly then
      let iconWatchonly := index.watchonlyDecoration
      let watchonlyRect : QRect :=
        ⟨add32 boundingRect.right 5, add32 (add32 mainRect.top ypad) halfheight, 16, halfheight⟩
      painter.paintIcon iconWatchonly watchonlyRect
    else painter
  let foreground :=
    if amount < 0 then P.COLOR_NEGATIVE
    else if !confirmed then P.COLOR_UNCONFIRMED
    else option.paletteText
  let painter := painter.setPen foreground
  let amountText := U.formatWithUnit d.unit amount true SeparatorStyle.separatorAlways
  let amountText := if !confirmed then "[" ++ amountText ++ "]" else amountText
  let painter := painter.drawText amountRect Alignment.AlignRightVCenter amountText
  let painter := painter.setPen option.paletteText
  let painter := painter.drawText amountRect Alignment.AlignLeftVCenter (P.dateTimeStr date)
  painter.restore

/-- `TxViewDelegate::sizeHint`, as (width, height). -/
def TxViewDelegate.sizeHint (_d : TxViewDelegate) (_option : QStyleOptionViewItem)
    (_index : TxRow) : Int × Int :=
  (DECORATION_SIZE, DECORATION_SIZE)

/-! ## Placement inside the item rectangle -/

/-- The rectangle lies in the upper half of `main`: it has at least one row,
and its rows are rows of `main` above the row halving `main`. -/
def QRect.inUpperHalfOf (r main : QRect) : Prop :=
  0 < r.height ∧ main.y ≤ r.y ∧ r.y + r.height ≤ main.y + main.height / 2

/-- The rectangle lies in the lower half of `main`: it has at least one row,
and its rows are rows of `main` from the row halving `main` on. -/
def QRect.inLowerHalfOf (r main : QRect) : Prop :=
  0 < r.height ∧ main.y + main.height / 2 ≤ r.y ∧ r.y + r.height ≤ main.y + main.height

/-- The rectangle lies to the right of the decoration icon of `main`: it has
at least one column, and its columns are columns of `main` after the 54
columns of the icon. -/
def QRect.rightOfIconOf (r main : QRect) : Prop :=
  0 < r.width ∧ main.x + DECORATION_SIZE ≤ r.x ∧ r.x + r.width ≤ main.x + main.width

instance (r main : QRect) : Decidable (r.inUpperHalfOf main) := by
  unfold QRect.inUpperHalfOf; exact inferInstance

instance (r main : QRect) : Decidable (r.inLowerHalfOf main) := by
  unfold QRect.inLowerHalfOf; exact inferInstance

instance (r main : QRect) : Decidable (r.rightOfIconOf main) := by
  unfold QRect.rightOfIconOf; exact inferInstance

/-- Membership in the range of `int`. -/
def inInt32 (x : Int) : Prop := -2147483648 ≤ x ∧ x ≤ 2147483647

instance (x : Int) : Decidable (inInt32 x) := by
  unfold inInt32; exact inferInstance

/-- The rectangle is a value of `QRect`: the class stores the corners
`left`, `top`, `right` and `bottom` as `int`, and `width()` and `height()` are
`int` values. -/
def QRect.inRange (r : QRect) : Prop :=
  inInt32 r.x ∧ inInt32 r.y ∧ inInt32 r.width ∧ inInt32 r.height ∧
    inInt32 (r.x + r.width - 1) ∧ inInt32 (r.y + r.height - 1)

instance (r : QRect) : Decidable r.inRange := by
  unfold QRect.inRange; exact inferInstance

/-- The texts drawn with the given alignment, with their rectangle and pen. -/
def textsAligned (a : Alignment) (ops : List DrawOp) : List (QRect × String × QColor) :=
  ops.filterMap fun op =>
    match op with
    | DrawOp.text rect align str pen => if align = a then some (rect, str, pen) else none
    | DrawOp.icon _ _ => none

/-- The icons drawn, with their rectangle. -/
def iconsDrawn (ops : List DrawOp) : List (QIcon × QRect) :=
  ops.filterMap fun op =>
    match op with
    | DrawOp.icon i rect => some (i, rect)
    | DrawOp.text _ _ _ _ => none

/-! ## Sample collaborators, for evaluation on concrete inputs -/

/-- A rendering of amounts and units that shows the arguments of the call:
the unit number, then the amount in base units. -/
def sampleUnits : BitcoinUnits :=
  { BTC := 0
    format := fun unit amount _ _ => toString unit ++ ":" ++ toString amount
    formatWithUnit := fun unit amount _ _ => toString unit ++ ":" ++ toString amount ++ " u"
    shortName := fun unit => "unit" ++ toString unit }

/-- A blank form: every label empty and visible, the list not configured. -/
def blankForm : Ui :=
  let l : QLabel := { text := "", visible := true }
  { labelBalance := l, labelUnconfirmed := l, labelImmature := l, labelStake := l
    labelTotal := l, labelBalanceUnit := l, labelUnconfirmedUnit := l
    labelImmatureUnit := l, labelStakeUnit := l, labelTotalUnit := l
    labelImmatureText := l, labelStakeText := l, labelWalletStatus := l
    listTransactions :=
      { model := none, alternatingRowColors := false, sortingEnabled := false
        sortIndicator := none, verticalHeaderVisible := true, sectionSizes := []
        stretchSections := [] } }

/-- A snapshot with the given four owned amounts and no watch-only funds. -/
def ownedOnly (a b c d : CAmount) : Balances :=
  { balance := a, unconfirmedBalance := b, immatureBalance := c, stakeBalance := d
    watchOnlyBalance := 0, watchUnconfBalance := 0, watchImmatureBalance := 0
    watchStakeBalance := 0 }

/-- An environment with one kind of wallet model at every address except
address 0: display unit `unit`, totals `s`. The model at address 0 has no
options model. The filter proxy shifts rows by seven. -/
def sampleEnv (unit : Int) (s : Balances) : Env :=
  { walletModels := fun a =>
      { optionsModel := if a = 0 then none else some { displayUnit := unit }
        transactionTableModel := some 100
        balances := s
        haveWatchOnly := false }
    mapToSource := fun _ i => { i with row := i.row + 7 } }

/-- Modelled from the spec: the constants `COLOR_NEGATIVE` and
`COLOR_UNCONFIRMED` of `qt/guiconstants.h`, which the spec calls red and
amber; the icon recolouring, font metrics and date text are samples. -/
def samplePaintEnv : PaintEnv :=
  { COLOR_NEGATIVE := ⟨255, 0, 0⟩
    COLOR_UNCONFIRMED := ⟨255, 191, 0⟩
    SingleColorIcon := fun i => i
    boundingRect := fun r _ str => { r with width := 7 * str.length }
    dateTimeStr := fun t => toString t }

/-- A fresh painter with a black pen. -/
def blankPainter : QPainter := { pen := ⟨0, 0, 0⟩, saved := [], ops := [] }

/-- An item of 200 by 54 pixels at the origin, with a dark grey text colour. -/
def sampleOption : QStyleOptionViewItem := { rect := ⟨0, 0, 200, 54⟩, paletteText := ⟨1, 1, 1⟩ }

/-- An unconfirmed, watch-only row that spends one base unit. -/
def sampleRow : TxRow :=
  { rawDecoration := ⟨"tx"⟩
    date := 5
    display := "addr"
    amount := -1
    confirmed := false
    foreground := none
    watchonly := true
    watchonlyDecoration := ⟨"eye"⟩ }

/-- A freshly constructed page over the blank form. -/
def freshWorld : World := OverviewPage.construct sampleUnits blankForm

/-- The fresh page after `setWalletModel` with the wallet model at address 1
of the sample environment (unit 0, available 5). -/
def listingWorld : World :=
  (setWalletModel sampleUnits (sampleEnv 0 (ownedOnly 5 0 0 0)) (some 1) freshWorld).getD freshWorld

/-! ## Notifications -/

/-- What can happen to the page: the two calls made by its owner, and the
signal `balanceChanged` of the wallet model at address `sender`. -/
inductive Event where
  | setWalletModel (model : Option Nat)
  | updateDisplayUnit
  | balanceChanged (sender : Nat) (s : Balances)
  deriving DecidableEq, Repr

/-- Delivery of `balanceChanged` from the wallet model at `sender`: the slot
`setBalance` runs once for each connection of that signal to it. -/
def deliverBalanceChanged (U : BitcoinUnits) (env : Env) (sender : Nat) (s : Balances)
    (w : World) : Option World :=
  (w.connections.filter fun c =>
      c = ⟨Sender.walletModel sender, SignalName.balanceChanged, Slot.setBalance⟩).foldlM
    (fun w _ => setBalance U env s w) w

/-- One event, in the environment of its time. -/
def step (U : BitcoinUnits) (env : Env) (w : World) : Event → Option World
  | Event.setWalletModel model => setWalletModel U env model w
  | Event.updateDisplayUnit => updateDisplayUnit U env w
  | Event.balanceChanged sender s => deliverBalanceChanged U env sender s w

/-- A sequence of events, each with the environment of its time. There is no
result as soon as one of them dereferences a null pointer. -/
def run (U : BitcoinUnits) (w : World) : List (Env × Event) → Option World
  | [] => some w
  | (env, e) :: rest => (step U env w e).bind fun w1 => run U w1 rest

end DeepOnion

namespace DeepOnion

/-! ## Helper lemmas -/

theorem wrap64_of_inInt64 (x : Int) (h : inInt64 x) : wrap64 x = x := by
  unfold inInt64 at h
  unfold wrap64
  omega

theorem wrap64_add_left (x y : Int) : wrap64 (wrap64 x + y) = wrap64 (x + y) := by
  simp only [wrap64]
  omega

theorem add64_chain (a b c d : Int) :
    add64 (add64 (add64 a b) c) d = wrap64 (a + b + c + d) := by
  show wrap64 (wrap64 (wrap64 (a + b) + c) + d) = wrap64 (a + b + c + d)
  rw [wrap64_add_left, Int.add_assoc (wrap64 (a + b)) c d, wrap64_add_left,
    ← Int.add_assoc (a + b) c d]

theorem setBalance_of_options (U : BitcoinUnits) (env : Env) (s : Balances) (w : World)
    (options : OptionsModel) (hopt : optionsOf env w.page.walletModel = some options) :
    setBalance U env s w = some (setBalanceBody U options.displayUnit s w) := by
  simp only [setBalance, hopt]

theorem setBalance_cached (U : BitcoinUnits) (env : Env) (s : Balances) (w0 w : World)
    (h : setBalance U env s w0 = some w) :
    w.page.cached = s ∧ w.page.walletModel = w0.page.walletModel := by
  unfold setBalance at h
  split at h
  · cases h
  · cases h
    exact ⟨rfl, rfl⟩

/-! ## The balance display -/

/-- C1, as amended. When the wallet model and its options model are set,
`setBalance` returns and the total label shows, formatted under the current
unit, the sum available + unconfirmed + immature + staked reduced to the
signed 64-bit range; that is exactly the sum whenever the sum lies in that
range. For every snapshot, whatever its sum, the text of the total label is
the same for all values of the four watch-only amounts. -/
theorem setBalance_total (U : BitcoinUnits) (env : Env) (s : Balances) (w : World)
    (options : OptionsModel)
    (hopt : optionsOf env w.page.walletModel = some options) :
    ∃ w1, setBalance U env s w = some w1 ∧
      w1.page.ui.labelTotal.text =
        U.format options.displayUnit
          (wrap64 (s.balance + s.unconfirmedBalance + s.immatureBalance + s.stakeBalance))
          false SeparatorStyle.separatorAlways ∧
      (inInt64 (s.balance + s.unconfirmedBalance + s.immatureBalance + s.stakeBalance) →
        w1.page.ui.labelTotal.text =
          U.format options.displayUnit
            (s.balance + s.unconfirmedBalance + s.immatureBalance + s.stakeBalance)
            false SeparatorStyle.separatorAlways) ∧
      ∀ a b c d : CAmount,
        (setBalance U env
            { s with
              watchOnlyBalance := a
              watchUnconfBalance := b
              watchImmatureBalance := c
              watchStakeBalance := d } w).map
            (fun w2 => w2.page.ui.labelTotal.text) =
          some w1.page.ui.labelTotal.text := by
  refine ⟨_, setBalance_of_options U env s w options hopt, ?_, ?_, ?_⟩
  · simp only [setBalanceBody, QLabel.setText, add64_chain]
  · intro hsum
    simp only [setBalanceBody, QLabel.setText, add64_chain, wrap64_of_inInt64 _ hsum]
  · intro a b c d
    simp only [setBalance, hopt, Option.map_some', setBalanceBody]

/-- Evaluation of `setBalance_total`: 3 + 4 + 0 + 5 shown as 12 under unit 2,
also when the watch-only amounts are 7, 8, 9 and 10. -/
theorem setBalance_total_witness :
    ∃ w1, setBalance sampleUnits (sampleEnv 2 (ownedOnly 0 0 0 0)) (ownedOnly 3 4 0 5)
        listingWorld = some w1 ∧
      w1.page.ui.labelTotal.text = "2:12" ∧
      (setBalance sampleUnits (sampleEnv 2 (ownedOnly 0 0 0 0))
          { ownedOnly 3 4 0 5 with
            watchOnlyBalance := 7
            watchUnconfBalance := 8
            watchImmatureBalance := 9
            watchStakeBalance := 10 } listingWorld).map
          (fun w2 => w2.page.ui.labelTotal.text) = some "2:12" := by
  obtain ⟨w1, h, _, hexact, hwatch⟩ :=
    setBalance_total sampleUnits (sampleEnv 2 (ownedOnly 0 0 0 0)) (ownedOnly 3 4 0 5)
      listingWorld ⟨2⟩ (by decide)
  have ht : w1.page.ui.labelTotal.text = "2:12" := (hexact (by decide)).trans (by decide)
  exact ⟨w1, h, ht, (hwatch 7 8 9 10).trans (congrArg some ht)⟩

/-- C1, as stated, fails: for the signed 64-bit amounts available =
9223372036854775807 and unconfirmed = 1 (the rest 0) the total label shows
-9223372036854775808, not the integer sum 9223372036854775808. -/
theorem setBalance_total_overflow :
    (inInt64 9223372036854775807 ∧ inInt64 1 ∧ inInt64 0) ∧
    (setBalance sampleUnits (sampleEnv 0 (ownedOnly 0 0 0 0))
        (ownedOnly 9223372036854775807 1 0 0) listingWorld).map
      (fun w1 => w1.page.ui.labelTotal.text) = some "0:-9223372036854775808" ∧
    sampleUnits.format 0 (9223372036854775807 + 1 + 0 + 0) false
      SeparatorStyle.separatorAlways = "0:9223372036854775808" := by
  decide

/-- C2. When the wallet model and its options model are set, `setBalance`
returns, and afterwards each of the three immature widgets (value, caption,
unit) is visible exactly when immature or watch-only-immature is non-zero, and
each of the three staked widgets is visible exactly when staked or
watch-only-staked is non-zero. -/
theorem setBalance_visibility (U : BitcoinUnits) (env : Env) (s : Balances) (w : World)
    (options : OptionsModel)
    (hopt : optionsOf env w.page.walletModel = some options) :
    ∃ w1, setBalance U env s w = some w1 ∧
      (w1.page.ui.labelImmature.visible = true ↔
        (s.immatureBalance ≠ 0 ∨ s.watchImmatureBalance ≠ 0)) ∧
      (w1.page.ui.labelImmatureText.visible = true ↔
        (s.immatureBalance ≠ 0 ∨ s.watchImmatureBalance ≠ 0)) ∧
      (w1.page.ui.labelImmatureUnit.visible = true ↔
        (s.immatureBalance ≠ 0 ∨ s.watchImmatureBalance ≠ 0)) ∧
      (w1.page.ui.labelStake.visible = true ↔
        (s.stakeBalance ≠ 0 ∨ s.watchStakeBalance ≠ 0)) ∧
      (w1.page.ui.labelStakeText.visible = true ↔
        (s.stakeBalance ≠ 0 ∨ s.watchStakeBalance ≠ 0)) ∧
      (w1.page.ui.labelStakeUnit.visible = true ↔
        (s.stakeBalance ≠ 0 ∨ s.watchStakeBalance ≠ 0)) := by
  refine ⟨_, setBalance_of_options U env s w options hopt, ?_⟩
  simp [setBalanceBody, QLabel.setText, QLabel.setVisible]

/-- Evaluation of `setBalance_visibility` at the snapshot
(500000000, 0, 0, 0, 0, 0, 0, 0): both sections are hidden. -/
theorem setBalance_visibility_witness :
    ∃ w1, setBalance sampleUnits (sampleEnv 0 (ownedOnly 0 0 0 0)) (ownedOnly 500000000 0 0 0)
        listingWorld = some w1 ∧
      w1.page.ui.labelImmature.visible = false ∧
      w1.page.ui.labelImmatureText.visible = false ∧
      w1.page.ui.labelImmatureUnit.visible = false ∧
      w1.page.ui.labelStake.visible = false ∧
      w1.page.ui.labelStakeText.visible = false ∧
      w1.page.ui.labelStakeUnit.visible = false := by
  obtain ⟨w1, h, h1, h2, h3, h4, h5, h6⟩ :=
    setBalance_visibility sampleUnits (sampleEnv 0 (ownedOnly 0 0 0 0))
      (ownedOnly 500000000 0 0 0) listingWorld ⟨0⟩ (by decide)
  have hz : ¬ ((ownedOnly 500000000 0 0 0).immatureBalance ≠ 0 ∨
      (ownedOnly 500000000 0 0 0).watchImmatureBalance ≠ 0) := by decide
  have hs : ¬ ((ownedOnly 500000000 0 0 0).stakeBalance ≠ 0 ∨
      (ownedOnly 500000000 0 0 0).watchStakeBalance ≠ 0) := by decide
  refine ⟨w1, h, ?_, ?_, ?_, ?_, ?_, ?_⟩
  · exact Bool.eq_false_iff.mpr fun hv => hz (h1.mp hv)
  · exact Bool.eq_false_iff.mpr fun hv => hz (h2.mp hv)
  · exact Bool.eq_false_iff.mpr fun hv => hz (h3.mp hv)
  · exact Bool.eq_false_iff.mpr fun hv => hs (h4.mp hv)
  · exact Bool.eq_false_iff.mpr fun hv => hs (h5.mp hv)
  · exact Bool.eq_false_iff.mpr fun hv => hs (h6.mp hv)

/-- C9. Two calls of `setBalance` from the same state under the same unit,
with snapshots that agree on the four owned amounts and on
watch-only-immature and watch-only-staked, both return; the resulting forms
(every label text and visibility flag) are identical and the two results are
equal once the cached `currentWatchOnlyBalance` and
`currentWatchUnconfBalance` of the second are replaced by those of the first
snapshot. `updateWatchOnlyLabels` leaves the whole state unchanged for both
argument values. -/
theorem setBalance_watch_noninterference (U : BitcoinUnits) (env : Env) (s1 s2 : Balances)
    (w : World) (options : OptionsModel)
    (hopt : optionsOf env w.page.walletModel = some options)
    (hagree : s1.balance = s2.balance ∧ s1.unconfirmedBalance = s2.unconfirmedBalance ∧
      s1.immatureBalance = s2.immatureBalance ∧ s1.stakeBalance = s2.stakeBalance ∧
      s1.watchImmatureBalance = s2.watchImmatureBalance ∧
      s1.watchStakeBalance = s2.watchStakeBalance) :
    (∃ w1 w2, setBalance U env s1 w = some w1 ∧ setBalance U env s2 w = some w2 ∧
      w1.page.ui = w2.page.ui ∧
      w1.page = { w2.page with
        currentWatchOnlyBalance := s1.watchOnlyBalance
        currentWatchUnconfBalance := s1.watchUnconfBalance } ∧
      w1.connections = w2.connections ∧ w1.emitted = w2.emitted ∧
      w1.updateRequests = w2.updateRequests) ∧
    updateWatchOnlyLabels true w = w ∧ updateWatchOnlyLabels false w = w := by
  obtain ⟨h1, h2, h3, h4, h5, h6⟩ := hagree
  refine ⟨⟨setBalanceBody U options.displayUnit s1 w, setBalanceBody U options.displayUnit s2 w,
    setBalance_of_options U env s1 w options hopt, setBalance_of_options U env s2 w options hopt,
    ?_, ?_, rfl, rfl, rfl⟩, rfl, rfl⟩
  · simp only [setBalanceBody, h1, h2, h3, h4, h5, h6]
  · simp only [setBalanceBody, h1, h2, h3, h4, h5, h6]

/-- Evaluation of `setBalance_watch_noninterference`: watch-only available
and unconfirmed 7 and 9 against 0 and 0 give the same form. -/
theorem setBalance_watch_noninterference_witness :
    ∃ w1 w2,
      setBalance sampleUnits (sampleEnv 0 (ownedOnly 0 0 0 0))
        { ownedOnly 1 2 3 4 with watchOnlyBalance := 7, watchUnconfBalance := 9 }
        listingWorld = some w1 ∧
      setBalance sampleUnits (sampleEnv 0 (ownedOnly 0 0 0 0)) (ownedOnly 1 2 3 4)
        listingWorld = some w2 ∧
      w1.page.ui = w2.page.ui := by
  obtain ⟨⟨w1, w2, h1, h2, hui, _⟩, _⟩ :=
    setBalance_watch_noninterference sampleUnits (sampleEnv 0 (ownedOnly 0 0 0 0))
      { ownedOnly 1 2 3 4 with watchOnlyBalance := 7, watchUnconfBalance := 9 }
      (ownedOnly 1 2 3 4) listingWorld ⟨0⟩ (by decide) (by decide)
  exact ⟨w1, w2, h1, h2, hui⟩

/-! ## The unit-change handler -/

/-- C3, as amended. Let the snapshot `s`, with available different from -1,
have been delivered through `setBalance`. Once the options model reports a
unit `u` and `updateDisplayUnit` runs with the wallet model and options model
set, it returns, and then: the four amount labels show the four owned amounts
of `s` formatted under `u`, the total label shows their sum (reduced to the
signed 64-bit range) formatted under `u`, the five unit labels show the short
name of `u`, the immature and staked widgets are visible exactly when the
owned or the watch-only amount of `s` is non-zero, the form as a whole equals
the form `setBalance` with `s` produces under `u`, the eight cached amounts
equal `s`, and the list renderer holds `u`. -/
theorem updateDisplayUnit_reformats (U : BitcoinUnits) (env env1 : Env) (s : Balances)
    (w0 w : World) (options1 : OptionsModel)
    (hset : setBalance U env s w0 = some w)
    (hopt : optionsOf env1 w.page.walletModel = some options1)
    (hs : s.balance ≠ -1) :
    ∃ w1 w2, updateDisplayUnit U env1 w = some w1 ∧ setBalance U env1 s w = some w2 ∧
      w1.page.ui = w2.page.ui ∧ w1.page.cached = s ∧
      w1.page.txdelegate.unit = options1.displayUnit ∧
      w1.page.ui.labelBalance.text =
        U.format options1.displayUnit s.balance false SeparatorStyle.separatorAlways ∧
      w1.page.ui.labelUnconfirmed.text =
        U.format options1.displayUnit s.unconfirmedBalance false
          SeparatorStyle.separatorAlways ∧
      w1.page.ui.labelImmature.text =
        U.format options1.displayUnit s.immatureBalance false SeparatorStyle.separatorAlways ∧
      w1.page.ui.labelStake.text =
        U.format options1.displayUnit s.stakeBalance false SeparatorStyle.separatorAlways ∧
      w1.page.ui.labelTotal.text =
        U.format options1.displayUnit
          (wrap64 (s.balance + s.unconfirmedBalance + s.immatureBalance + s.stakeBalance))
          false SeparatorStyle.separatorAlways ∧
      w1.page.ui.labelBalanceUnit.text = U.shortName options1.displayUnit ∧
      w1.page.ui.labelUnconfirmedUnit.text = U.shortName options1.displayUnit ∧
      w1.page.ui.labelImmatureUnit.text = U.shortName options1.displayUnit ∧
      w1.page.ui.labelStakeUnit.text = U.shortName options1.displayUnit ∧
      w1.page.ui.labelTotalUnit.text = U.shortName options1.displayUnit ∧
      (w1.page.ui.labelImmature.visible = true ↔
        (s.immatureBalance ≠ 0 ∨ s.watchImmatureBalance ≠ 0)) ∧
      (w1.page.ui.labelImmatureText.visible = true ↔
        (s.immatureBalance ≠ 0 ∨ s.watchImmatureBalance ≠ 0)) ∧
      (w1.page.ui.labelImmatureUnit.visible = true ↔
        (s.immatureBalance ≠ 0 ∨ s.watchImmatureBalance ≠ 0)) ∧
      (w1.page.ui.labelStake.visible = true ↔
        (s.stakeBalance ≠ 0 ∨ s.watchStakeBalance ≠ 0)) ∧
      (w1.page.ui.labelStakeText.visible = true ↔
        (s.stakeBalance ≠ 0 ∨ s.watchStakeBalance ≠ 0)) ∧
      (w1.page.ui.labelStakeUnit.visible = true ↔
        (s.stakeBalance ≠ 0 ∨ s.watchStakeBalance ≠ 0)) := by
  have hc : w.page.cached = s := (setBalance_cached U env s w0 w hset).1
  have hb : w.page.currentBalance ≠ -1 := by
    have : w.page.cached.balance = s.balance := by rw [hc]
    exact fun h => hs (this ▸ h)
  have h2 := setBalance_of_options U env1 s w options1 hopt
  simp only [updateDisplayUnit, hopt, hb, hc, h2, ne_eq, not_false_eq_true, if_true,
    Option.some_bind]
  refine ⟨_, _, rfl, rfl, rfl, rfl, rfl, rfl, rfl, rfl, rfl, ?_, rfl, rfl, rfl, rfl, rfl,
    ?_, ?_, ?_, ?_, ?_, ?_⟩
  · simp only [setBalanceBody, QLabel.setText, add64_chain]
  all_goals simp [setBalanceBody, QLabel.setText, QLabel.setVisible]

/-- Evaluation of `updateDisplayUnit_reformats`: available 5 delivered under
unit 0, then the unit changes to 1 and the labels read 5 under unit 1. -/
theorem updateDisplayUnit_reformats_witness :
    ∃ w1,
      updateDisplayUnit sampleUnits (sampleEnv 1 (ownedOnly 0 0 0 0))
        (setBalanceBody sampleUnits 0 (ownedOnly 5 0 0 0) listingWorld) = some w1 ∧
      w1.page.cached = ownedOnly 5 0 0 0 ∧
      w1.page.txdelegate.unit = 1 ∧
      w1.page.ui.labelBalance.text = "1:5" ∧
      w1.page.ui.labelTotal.text = "1:5" ∧
      w1.page.ui.labelBalanceUnit.text = "unit1" ∧
      w1.page.ui.labelTotalUnit.text = "unit1" := by
  obtain ⟨w1, _, h, _, _, hc, hu, hb, _, _, _, ht, hbu, _, _, _, htu, _⟩ :=
    updateDisplayUnit_reformats sampleUnits (sampleEnv 0 (ownedOnly 0 0 0 0))
      (sampleEnv 1 (ownedOnly 0 0 0 0)) (ownedOnly 5 0 0 0) listingWorld
      (setBalanceBody sampleUnits 0 (ownedOnly 5 0 0 0) listingWorld) ⟨1⟩
      (by decide) (by decide) (by decide)
  exact ⟨w1, h, hc, hu, hb.trans (by decide), ht.trans (by decide), hbu.trans (by decide),
    htu.trans (by decide)⟩

/-- C3, as stated, fails: the snapshot with available = -1 is delivered
under unit 0; after the unit changes to 1 `updateDisplayUnit` leaves the
labels as formatted under unit 0, while `setBalance` under unit 1 would show
them under unit 1. -/
theorem updateDisplayUnit_sentinel_snapshot :
    ((setBalance sampleUnits (sampleEnv 0 (ownedOnly 0 0 0 0)) (ownedOnly (-1) 0 0 0)
        listingWorld).bind
      (updateDisplayUnit sampleUnits (sampleEnv 1 (ownedOnly 0 0 0 0)))).map
      (fun w => (w.page.ui.labelBalance.text, w.page.ui.labelBalanceUnit.text)) =
        some ("0:-1", "unit0") ∧
    ((setBalance sampleUnits (sampleEnv 0 (ownedOnly 0 0 0 0)) (ownedOnly (-1) 0 0 0)
        listingWorld).bind
      (setBalance sampleUnits (sampleEnv 1 (ownedOnly 0 0 0 0)) (ownedOnly (-1) 0 0 0))).map
      (fun w => (w.page.ui.labelBalance.text, w.page.ui.labelBalanceUnit.text)) =
        some ("1:-1", "unit1") := by
  decide

/-- C8. In the freshly constructed state `updateDisplayUnit` returns and
changes nothing, whatever the wallet and options models of the environment
report: form, cached amounts, renderer unit, connections and signals are as
before. -/
theorem updateDisplayUnit_fresh (U : BitcoinUnits) (env : Env) (form : Ui) :
    updateDisplayUnit U env (OverviewPage.construct U form) =
      some (OverviewPage.construct U form) := by
  rfl

/-- With the wallet model and options model set and the cached available
amount equal to the constructor's -1, `updateDisplayUnit` leaves the form and
the cached amounts as they are, gives the list renderer the reported unit and
asks the list to repaint. -/
theorem updateDisplayUnit_sentinel_state (U : BitcoinUnits) (env : Env) (w : World)
    (options : OptionsModel)
    (hopt : optionsOf env w.page.walletModel = some options)
    (hb : w.page.currentBalance = -1) :
    updateDisplayUnit U env w =
      some { w with
        page := { w.page with txdelegate := { unit := options.displayUnit } }
        updateRequests := w.updateRequests + 1 } := by
  simp only [updateDisplayUnit, hopt, hb, ne_eq, not_true_eq_false, if_false, Option.some_bind]

/-! ## Attaching a wallet model -/

/-- C5, as amended. For a wallet model with a non-null options model, one
call of `setWalletModel` returns and runs `setBalance` with the model's eight
current totals: once when the available total is -1, and otherwise twice, the
second time from `updateDisplayUnit` with the same eight amounts. Afterwards
the cached snapshot equals those totals. -/
theorem setWalletModel_refreshes (U : BitcoinUnits) (env : Env) (m : Nat) (w : World)
    (options : OptionsModel)
    (hopt : (env.walletModels m).optionsModel = some options) :
    ∃ w1, setWalletModel U env (some m) w = some w1 ∧
      w1.setBalanceRuns = w.setBalanceRuns ++
        (if (env.walletModels m).balances.balance = -1 then [(env.walletModels m).balances]
          else [(env.walletModels m).balances, (env.walletModels m).balances]) ∧
      w1.page.cached = (env.walletModels m).balances := by
  have ho : optionsOf env (some m) = some options := hopt
  by_cases hb : (env.walletModels m).balances.balance = -1
  · simp only [setWalletModel, ho, setWalletModelConnected, setBalance, Option.some_bind,
      updateDisplayUnit, World.connect, updateWatchOnlyLabels, setBalanceBody, hb, ne_eq,
      not_true_eq_false, if_false, if_true]
    refine ⟨_, rfl, rfl, ?_⟩
    simp only [OverviewPage.cached, ← hb]
  · simp only [setWalletModel, ho, setWalletModelConnected, setBalance, Option.some_bind,
      updateDisplayUnit, World.connect, updateWatchOnlyLabels, setBalanceBody, hb, ne_eq,
      not_false_eq_true, if_true, if_false]
    refine ⟨_, rfl, ?_, rfl⟩
    simp [OverviewPage.cached]

/-- Evaluation of `setWalletModel_refreshes` on the fresh page with
available 5: two runs of `setBalance`. -/
theorem setWalletModel_refreshes_witness :
    ∃ w1, setWalletModel sampleUnits (sampleEnv 0 (ownedOnly 5 0 0 0)) (some 1) freshWorld =
        some w1 ∧
      w1.setBalanceRuns = [ownedOnly 5 0 0 0, ownedOnly 5 0 0 0] ∧
      w1.page.cached = ownedOnly 5 0 0 0 :=
  setWalletModel_refreshes sampleUnits (sampleEnv 0 (ownedOnly 5 0 0 0)) 1 freshWorld ⟨0⟩
    (by decide)

/-- C5, as stated, fails: one call of `setWalletModel` on the fresh page with
a wallet model whose available total is 5 runs `setBalance` twice. -/
theorem setWalletModel_two_runs :
    (setWalletModel sampleUnits (sampleEnv 0 (ownedOnly 5 0 0 0)) (some 1) freshWorld).map
      (fun w => w.setBalanceRuns.length) = some 2 := by
  decide

/-! ## Click forwarding -/

/-- C4. With a filter configured, `handleTransactionClicked` emits
`transactionClicked` exactly once, carrying the image of the clicked index
under the filter's `mapToSource`, and changes nothing else; with no filter it
emits nothing and changes nothing. -/
theorem handleTransactionClicked_forwards (env : Env) (index : QModelIndex) (w : World) :
    (∀ f, w.page.filter = some f →
      handleTransactionClicked env index w =
        { w with emitted := w.emitted ++ [Emitted.transactionClicked (env.mapToSource f index)] }) ∧
    (w.page.filter = none → handleTransactionClicked env index w = w) := by
  constructor
  · intro f hf
    simp only [handleTransactionClicked, hf]
  · intro hf
    simp only [handleTransactionClicked, hf]

/-- Evaluation of `handleTransactionClicked_forwards`: the filter maps row 0
to source row 7, and a click on row 0 emits row 7. -/
theorem handleTransactionClicked_forwards_witness :
    setWalletModel sampleUnits (sampleEnv 0 (ownedOnly 5 0 0 0)) (some 1) freshWorld =
        some listingWorld ∧
      (sampleEnv 0 (ownedOnly 5 0 0 0)).mapToSource
        ⟨some 100, 8, true, ItemRole.EditRole, false, Column.Date, SortOrder.DescendingOrder⟩
        ⟨0, 0⟩ = ⟨7, 0⟩ ∧
      handleTransactionClicked (sampleEnv 0 (ownedOnly 5 0 0 0)) ⟨0, 0⟩ listingWorld =
        { listingWorld with
          emitted := listingWorld.emitted ++
            [Emitted.transactionClicked
              ((sampleEnv 0 (ownedOnly 5 0 0 0)).mapToSource
                ⟨some 100, 8, true, ItemRole.EditRole, false, Column.Date,
                  SortOrder.DescendingOrder⟩ ⟨0, 0⟩)] } :=
  ⟨by decide, by decide,
    (handleTransactionClicked_forwards (sampleEnv 0 (ownedOnly 5 0 0 0)) ⟨0, 0⟩ listingWorld).1
      ⟨some 100, 8, true, ItemRole.EditRole, false, Column.Date, SortOrder.DescendingOrder⟩
      (by decide)⟩

/-! ## Null pointers -/

/-- The guarded caller: `updateDisplayUnit` always returns. -/
theorem updateDisplayUnit_returns (U : BitcoinUnits) (env : Env) (w : World) :
    ∃ w1, updateDisplayUnit U env w = some w1 ∧ w1.page.walletModel = w.page.walletModel := by
  unfold updateDisplayUnit
  cases hopt : optionsOf env w.page.walletModel with
  | none => exact ⟨w, rfl, rfl⟩
  | some options =>
    by_cases hb : w.page.currentBalance = -1
    · simp only [hb, ne_eq, not_true_eq_false, if_false, Option.some_bind]
      exact ⟨_, rfl, rfl⟩
    · simp only [hb, ne_eq, not_false_eq_true, if_true,
        setBalance_of_options U env w.page.cached w options hopt, Option.some_bind]
      exact ⟨_, rfl, rfl⟩

/-- The guarded caller: `setWalletModel` always returns, for every argument,
null pointers included. -/
theorem setWalletModel_returns (U : BitcoinUnits) (env : Env) (model : Option Nat) (w : World) :
    ∃ w1, setWalletModel U env model w = some w1 := by
  unfold setWalletModel
  cases model with
  | none =>
    obtain ⟨w1, h, _⟩ := updateDisplayUnit_returns U env
      { w with page := { w.page with walletModel := none } }
    exact ⟨w1, h⟩
  | some m =>
    cases hopt : optionsOf env (some m) with
    | none =>
      obtain ⟨w1, h, _⟩ := updateDisplayUnit_returns U env
        { w with page := { w.page with walletModel := some m } }
      exact ⟨w1, h⟩
    | some options =>
      simp only [setWalletModelConnected, setBalance, hopt, Option.some_bind]
      exact (updateDisplayUnit_returns U env _).imp fun _ h => h.1

/-- The owner's calls alone never dereference a null pointer: a sequence of
`setWalletModel` and `updateDisplayUnit` calls, with any arguments and in any
environments, always has a result. -/
theorem run_calls_return (U : BitcoinUnits) (events : List (Env × Event)) :
    (∀ p ∈ events, ∀ sender s, p.2 ≠ Event.balanceChanged sender s) →
      ∀ w : World, ∃ w1, run U w events = some w1 := by
  induction events with
  | nil => exact fun _ w => ⟨w, rfl⟩
  | cons p rest ih =>
    intro h w
    obtain ⟨env, e⟩ := p
    have hrest : ∀ q ∈ rest, ∀ sender s, q.2 ≠ Event.balanceChanged sender s :=
      fun q hq => h q (List.mem_cons_of_mem _ hq)
    have hstep : ∃ w1, step U env w e = some w1 := by
      cases e with
      | setWalletModel model => exact setWalletModel_returns U env model w
      | updateDisplayUnit => exact (updateDisplayUnit_returns U env w).imp fun _ h => h.1
      | balanceChanged sender s => exact absurd rfl (h (env, _) (List.mem_cons_self _ _) sender s)
    obtain ⟨w1, h1⟩ := hstep
    obtain ⟨w2, h2⟩ := ih hrest w1
    exact ⟨w2, by simp only [run, h1, Option.some_bind, h2]⟩

/-- A `balanceChanged` notification has a result whenever the current wallet
model and its options model are non-null at the time of delivery. -/
theorem deliverBalanceChanged_returns (U : BitcoinUnits) (env : Env) (sender : Nat)
    (s : Balances) (w : World) (options : OptionsModel)
    (hopt : optionsOf env w.page.walletModel = some options) :
    ∃ w1, deliverBalanceChanged U env sender s w = some w1 := by
  unfold deliverBalanceChanged
  generalize (w.connections.filter fun c =>
    c = ⟨Sender.walletModel sender, SignalName.balanceChanged, Slot.setBalance⟩) = cs
  induction cs generalizing w with
  | nil => exact ⟨w, rfl⟩
  | cons c rest ih =>
    rw [List.foldlM_cons, setBalance_of_options U env s w options hopt]
    exact ih (setBalanceBody U options.displayUnit s w) hopt

/-- C10 fails on the code. After `setWalletModel` with a wallet model that
has an options model, followed by `setWalletModel` with the null pointer (or
with a wallet model that has no options model), the page is in a reachable
state; a `balanceChanged` notification from the first model, whose connection
is still in place, then runs `setBalance` while `walletModel` (or its options
model) is null, and `setBalance` has no result. -/
theorem stale_connection_null_dereference :
    (run sampleUnits freshWorld
      [(sampleEnv 0 (ownedOnly 5 0 0 0), Event.setWalletModel (some 1)),
        (sampleEnv 0 (ownedOnly 5 0 0 0), Event.setWalletModel none)]).isSome = true ∧
    run sampleUnits freshWorld
      [(sampleEnv 0 (ownedOnly 5 0 0 0), Event.setWalletModel (some 1)),
        (sampleEnv 0 (ownedOnly 5 0 0 0), Event.setWalletModel none),
        (sampleEnv 0 (ownedOnly 5 0 0 0), Event.balanceChanged 1 (ownedOnly 6 0 0 0))] = none ∧
    (run sampleUnits freshWorld
      [(sampleEnv 0 (ownedOnly 5 0 0 0), Event.setWalletModel (some 1)),
        (sampleEnv 0 (ownedOnly 5 0 0 0), Event.setWalletModel (some 0))]).isSome = true ∧
    run sampleUnits freshWorld
      [(sampleEnv 0 (ownedOnly 5 0 0 0), Event.setWalletModel (some 1)),
        (sampleEnv 0 (ownedOnly 5 0 0 0), Event.setWalletModel (some 0)),
        (sampleEnv 0 (ownedOnly 5 0 0 0), Event.balanceChanged 1 (ownedOnly 6 0 0 0))] = none := by
  decide

/-! ## The row painter -/

theorem wrap32_of_range (x : Int) (h1 : -2147483648 ≤ x) (h2 : x ≤ 2147483647) :
    wrap32 x = x := by
  simp only [wrap32]
  omega

/-- For an item rectangle at least 14 pixels high and 63 pixels wide the
renderer's `int` arithmetic does not overflow. -/
theorem paint_geometry (r : QRect) (hr : r.inRange) (hh : 14 ≤ r.height) (hw : 63 ≤ r.width) :
    add32 r.x (add32 54 8) = r.x + 62 ∧ add32 r.y 6 = r.y + 6 ∧
    sub32 r.width (add32 54 8) = r.width - 62 ∧
    div32 (sub32 r.height (mul32 2 6)) 2 = (r.height - 12) / 2 ∧
    add32 (add32 r.y 6) (div32 (sub32 r.height (mul32 2 6)) 2) = r.y + 6 + (r.height - 12) / 2 := by
  simp only [QRect.inRange, inInt32] at hr
  obtain ⟨⟨h1, h2⟩, ⟨h3, h4⟩, ⟨h5, h6⟩, ⟨h7, h8⟩, ⟨h9, h10⟩, ⟨h11, h12⟩⟩ := hr
  have e1 : add32 54 8 = 62 := by decide
  have e2 : mul32 2 6 = 12 := by decide
  have e3 : sub32 r.height 12 = r.height - 12 := wrap32_of_range _ (by omega) (by omega)
  have e4 : Int.tdiv (r.height - 12) 2 = (r.height - 12) / 2 :=
    Int.tdiv_eq_ediv (by omega) (by omega)
  have e5 : div32 (r.height - 12) 2 = (r.height - 12) / 2 := by
    simp only [div32, e4]
    exact wrap32_of_range _ (by omega) (by omega)
  have e6 : add32 r.y 6 = r.y + 6 := wrap32_of_range _ (by omega) (by omega)
  rw [e1, e2, e3, e5, e6]
  refine ⟨wrap32_of_range _ (by omega) (by omega), rfl, wrap32_of_range _ (by omega) (by omega),
    rfl, wrap32_of_range _ (by omega) (by omega)⟩

/-- C6, as amended. For every row and every item rectangle at least 14
pixels high and 63 pixels wide, `paint` draws, in this order: the decoration icon in a 54 by 54
square at the top left corner; the address text, left-aligned, in the
rectangle `lower`, which is not empty and lies in the lower half to the right
of the icon; when the row is watch-only, the watch-only icon on the rows of
`lower`, 16 pixels wide, 5 pixels after the bounding rectangle of the address
text; the amount text (the formatted amount, in square brackets when the row
is unconfirmed), right-aligned, and the date, left-aligned, both in the
rectangle `upper`, which is not empty and lies in the upper half to the right
of the icon. -/
theorem paint_layout (U : BitcoinUnits) (P : PaintEnv) (d : TxViewDelegate)
    (painter : QPainter) (option : QStyleOptionViewItem) (index : TxRow)
    (hr : option.rect.inRange) (hh : 14 ≤ option.rect.height)
    (hw : 63 ≤ option.rect.width) :
    ∃ upper lower watch : QRect,
      upper = ⟨option.rect.x + 62, option.rect.y + 6, option.rect.width - 62,
        (option.rect.height - 12) / 2⟩ ∧
      lower = ⟨option.rect.x + 62, option.rect.y + 6 + (option.rect.height - 12) / 2,
        option.rect.width - 62, (option.rect.height - 12) / 2⟩ ∧
      watch = ⟨add32 (P.boundingRect lower Alignment.AlignLeftVCenter index.display).right 5,
        lower.y, 16, lower.height⟩ ∧
      upper.inUpperHalfOf option.rect ∧ upper.rightOfIconOf option.rect ∧
      lower.inLowerHalfOf option.rect ∧ lower.rightOfIconOf option.rect ∧
      watch.inLowerHalfOf option.rect ∧
      (TxViewDelegate.paint U P d painter option index).ops =
        painter.ops ++
          [DrawOp.icon (P.SingleColorIcon index.rawDecoration)
            ⟨option.rect.x, option.rect.y, 54, 54⟩] ++
          [DrawOp.text lower Alignment.AlignLeftVCenter index.display
            (index.foreground.getD option.paletteText)] ++
          (if index.watchonly then [DrawOp.icon index.watchonlyDecoration watch] else []) ++
          [DrawOp.text upper Alignment.AlignRightVCenter
            (if index.confirmed then
              U.formatWithUnit d.unit index.amount true SeparatorStyle.separatorAlways
            else
              "[" ++ U.formatWithUnit d.unit index.amount true SeparatorStyle.separatorAlways
                ++ "]")
            (if index.amount < 0 then P.COLOR_NEGATIVE
            else if index.confirmed then option.paletteText
            else P.COLOR_UNCONFIRMED)] ++
          [DrawOp.text upper Alignment.AlignLeftVCenter (P.dateTimeStr index.date)
            option.paletteText] := by
  obtain ⟨g1, g2, g3, g4, g5⟩ := paint_geometry option.rect hr hh hw
  rw [g2, g4] at g5
  simp only [QRect.inRange, inInt32] at hr
  obtain ⟨⟨h1, h2⟩, ⟨h3, h4⟩, ⟨h5, h6⟩, ⟨h7, h8⟩, ⟨h9, h10⟩, ⟨h11, h12⟩⟩ := hr
  refine ⟨_, _, _, rfl, rfl, rfl, ?_, ?_, ?_, ?_, ?_, ?_⟩
  · simp only [QRect.inUpperHalfOf]
    omega
  · simp only [QRect.rightOfIconOf, DECORATION_SIZE]
    omega
  · simp only [QRect.inLowerHalfOf]
    omega
  · simp only [QRect.rightOfIconOf, DECORATION_SIZE]
    omega
  · simp only [QRect.inLowerHalfOf]
    omega
  · cases hwo : index.watchonly <;> cases hc : index.confirmed <;>
      cases hf : index.foreground <;>
      simp [TxViewDelegate.paint, QPainter.save, QPainter.restore, QPainter.setPen,
        QPainter.drawText, QPainter.paintIcon, QRect.left, QRect.top, DECORATION_SIZE,
        g1, g2, g3, g4, g5, hwo, hc, hf]

/-- Evaluation of `paint_layout` on the sample row in a 200 by 54 item: the
address on rows 27 to 47, the amount and the date on rows 6 to 26. -/
theorem paint_layout_witness :
    ∃ upper lower watch : QRect,
      upper = ⟨62, 6, 138, 21⟩ ∧ lower = ⟨62, 27, 138, 21⟩ ∧ watch = ⟨94, 27, 16, 21⟩ ∧
      upper.inUpperHalfOf sampleOption.rect ∧ upper.rightOfIconOf sampleOption.rect ∧
      lower.inLowerHalfOf sampleOption.rect ∧ lower.rightOfIconOf sampleOption.rect ∧
      watch.inLowerHalfOf sampleOption.rect ∧
      (TxViewDelegate.paint sampleUnits samplePaintEnv ⟨0⟩ blankPainter sampleOption
          sampleRow).ops =
        [DrawOp.icon ⟨"tx"⟩ ⟨0, 0, 54, 54⟩,
          DrawOp.text lower Alignment.AlignLeftVCenter "addr" ⟨1, 1, 1⟩,
          DrawOp.icon ⟨"eye"⟩ watch,
          DrawOp.text upper Alignment.AlignRightVCenter "[0:-1 u]" ⟨255, 0, 0⟩,
          DrawOp.text upper Alignment.AlignLeftVCenter "5" ⟨1, 1, 1⟩] := by
  obtain ⟨upper, lower, watch, hu, hl, hwa, p1, p2, p3, p4, p5, hops⟩ :=
    paint_layout sampleUnits samplePaintEnv ⟨0⟩ blankPainter sampleOption sampleRow
      (by decide) (by decide) (by decide)
  have hl1 : lower = ⟨62, 27, 138, 21⟩ := hl.trans (by decide)
  have hu1 : upper = ⟨62, 6, 138, 21⟩ := hu.trans (by decide)
  have hw1 : watch = ⟨94, 27, 16, 21⟩ := by
    rw [hwa, hl1]
    decide
  refine ⟨upper, lower, watch, hu1, hl1, hw1, p1, p2, p3, p4, p5, ?_⟩
  rw [hops, hu1, hl1, hw1]
  decide

/-- C6, as stated, fails: in a 200 by 54 item the address text and the
watch-only icon are drawn on rows 27 to 47, which lie in the lower half and
not in the upper half, and the amount and the date on rows 6 to 26, which lie
in the upper half and not in the lower half. -/
theorem paint_address_below_amount :
    (TxViewDelegate.paint sampleUnits samplePaintEnv ⟨0⟩ blankPainter sampleOption
        sampleRow).ops =
      [DrawOp.icon ⟨"tx"⟩ ⟨0, 0, 54, 54⟩,
        DrawOp.text ⟨62, 27, 138, 21⟩ Alignment.AlignLeftVCenter "addr" ⟨1, 1, 1⟩,
        DrawOp.icon ⟨"eye"⟩ ⟨94, 27, 16, 21⟩,
        DrawOp.text ⟨62, 6, 138, 21⟩ Alignment.AlignRightVCenter "[0:-1 u]" ⟨255, 0, 0⟩,
        DrawOp.text ⟨62, 6, 138, 21⟩ Alignment.AlignLeftVCenter "5" ⟨1, 1, 1⟩] ∧
    ¬ (QRect.inUpperHalfOf ⟨62, 27, 138, 21⟩ sampleOption.rect) ∧
    ¬ (QRect.inUpperHalfOf ⟨94, 27, 16, 21⟩ sampleOption.rect) ∧
    ¬ (QRect.inLowerHalfOf ⟨62, 6, 138, 21⟩ sampleOption.rect) ∧
    QRect.inLowerHalfOf ⟨62, 27, 138, 21⟩ sampleOption.rect ∧
    QRect.inLowerHalfOf ⟨94, 27, 16, 21⟩ sampleOption.rect ∧
    QRect.inUpperHalfOf ⟨62, 6, 138, 21⟩ sampleOption.rect := by
  decide

/-- In an item 13 pixels high the half height is 0: the amount, the date and
the address are all drawn in rectangles without rows, which lie in neither
half. The layout needs 14 pixels. -/
theorem paint_short_item :
    (TxViewDelegate.paint sampleUnits samplePaintEnv ⟨0⟩ blankPainter
        { sampleOption with rect := ⟨0, 0, 200, 13⟩ } sampleRow).ops =
      [DrawOp.icon ⟨"tx"⟩ ⟨0, 0, 54, 54⟩,
        DrawOp.text ⟨62, 6, 138, 0⟩ Alignment.AlignLeftVCenter "addr" ⟨1, 1, 1⟩,
        DrawOp.icon ⟨"eye"⟩ ⟨94, 6, 16, 0⟩,
        DrawOp.text ⟨62, 6, 138, 0⟩ Alignment.AlignRightVCenter "[0:-1 u]" ⟨255, 0, 0⟩,
        DrawOp.text ⟨62, 6, 138, 0⟩ Alignment.AlignLeftVCenter "5" ⟨1, 1, 1⟩] ∧
    ¬ (QRect.inUpperHalfOf ⟨62, 6, 138, 0⟩ ⟨0, 0, 200, 13⟩) ∧
    ¬ (QRect.inLowerHalfOf ⟨62, 6, 138, 0⟩ ⟨0, 0, 200, 13⟩) := by
  decide

/-- In an item 62 pixels wide the text rectangles have no column: nothing is
to the right of the icon. The layout needs 63 pixels. -/
theorem paint_narrow_item :
    textsAligned Alignment.AlignRightVCenter
        (TxViewDelegate.paint sampleUnits samplePaintEnv ⟨0⟩ blankPainter
          { sampleOption with rect := ⟨0, 0, 62, 54⟩ } sampleRow).ops =
      [(⟨62, 6, 0, 21⟩, "[0:-1 u]", ⟨255, 0, 0⟩)] ∧
    ¬ (QRect.rightOfIconOf ⟨62, 6, 0, 21⟩ ⟨0, 0, 62, 54⟩) := by
  decide

/-- C7, as amended. `paint` draws exactly one right-aligned text, the
amount. Its colour is the negative colour when the amount is negative
(confirmed or not), the unconfirmed colour when the amount is not negative
and the row is unconfirmed, and the default text colour when the amount is
not negative and the row is confirmed. Its text is the formatted amount,
wrapped in square brackets exactly when the row is unconfirmed. -/
theorem paint_amount_colour (U : BitcoinUnits) (P : PaintEnv) (d : TxViewDelegate)
    (painter : QPainter) (option : QStyleOptionViewItem) (index : TxRow) :
    ∃ rect : QRect, ∃ str : String, ∃ pen : QColor,
      textsAligned Alignment.AlignRightVCenter
          (TxViewDelegate.paint U P d painter option index).ops =
        textsAligned Alignment.AlignRightVCenter painter.ops ++ [(rect, str, pen)] ∧
      (index.amount < 0 → pen = P.COLOR_NEGATIVE) ∧
      (0 ≤ index.amount → index.confirmed = false → pen = P.COLOR_UNCONFIRMED) ∧
      (0 ≤ index.amount → index.confirmed = true → pen = option.paletteText) ∧
      (index.confirmed = false →
        str = "[" ++ U.formatWithUnit d.unit index.amount true SeparatorStyle.separatorAlways
          ++ "]") ∧
      (index.confirmed = true →
        str = U.formatWithUnit d.unit index.amount true SeparatorStyle.separatorAlways) := by
  refine ⟨⟨add32 option.rect.left (add32 DECORATION_SIZE 8), add32 option.rect.top 6,
      sub32 option.rect.width (add32 DECORATION_SIZE 8),
      div32 (sub32 option.rect.height (mul32 2 6)) 2⟩,
    if !index.confirmed then
      "[" ++ U.formatWithUnit d.unit index.amount true SeparatorStyle.separatorAlways ++ "]"
    else U.formatWithUnit d.unit index.amount true SeparatorStyle.separatorAlways,
    if index.amount < 0 then P.COLOR_NEGATIVE
    else if !index.confirmed then P.COLOR_UNCONFIRMED
    else option.paletteText, ?_, ?_, ?_, ?_, ?_, ?_⟩
  · cases hw : index.watchonly <;>
      simp [TxViewDelegate.paint, QPainter.save, QPainter.restore, QPainter.setPen,
        QPainter.drawText, QPainter.paintIcon, textsAligned, List.filterMap_append, hw]
  · intro h
    simp only [h, if_true]
  · intro h hc
    simp [not_lt.mpr h, hc]
  · intro h hc
    simp [not_lt.mpr h, hc]
  · intro hc
    simp [hc]
  · intro hc
    simp [hc]

/-- Evaluation of `paint_amount_colour` on the sample row: negative and
unconfirmed, so drawn in the negative colour and bracketed. -/
theorem paint_amount_colour_witness :
    sampleRow.amount < 0 ∧ sampleRow.confirmed = false ∧
    ∃ rect : QRect, ∃ str : String, ∃ pen : QColor,
      textsAligned Alignment.AlignRightVCenter
          (TxViewDelegate.paint sampleUnits samplePaintEnv ⟨0⟩ blankPainter sampleOption
            sampleRow).ops =
        textsAligned Alignment.AlignRightVCenter blankPainter.ops ++ [(rect, str, pen)] ∧
      pen = samplePaintEnv.COLOR_NEGATIVE ∧
      str = "[" ++ sampleUnits.formatWithUnit 0 sampleRow.amount true
        SeparatorStyle.separatorAlways ++ "]" := by
  obtain ⟨rect, str, pen, h, hneg, _, _, hbr, _⟩ :=
    paint_amount_colour sampleUnits samplePaintEnv ⟨0⟩ blankPainter sampleOption sampleRow
  exact ⟨by decide, by decide, rect, str, pen, h, hneg (by decide), hbr (by decide)⟩

/-- C7, as stated, fails: for an unconfirmed row with amount -1 the amount
text is wrapped in square brackets and drawn in the negative colour, which is
not the unconfirmed colour. -/
theorem paint_negative_unconfirmed :
    sampleRow.amount = -1 ∧ sampleRow.confirmed = false ∧
    textsAligned Alignment.AlignRightVCenter
        (TxViewDelegate.paint sampleUnits samplePaintEnv ⟨0⟩ blankPainter sampleOption
          sampleRow).ops =
      [(⟨62, 6, 138, 21⟩,
        "[" ++ sampleUnits.formatWithUnit 0 (-1) true SeparatorStyle.separatorAlways ++ "]",
        samplePaintEnv.COLOR_NEGATIVE)] ∧
    samplePaintEnv.COLOR_NEGATIVE ≠ samplePaintEnv.COLOR_UNCONFIRMED := by
  decide

end DeepOnion
